import Mathlib

/-!
Verification of the Scene Playback Controller of `PresentationPlayer.tsx`
(LenoreWoW/logfold-visualizer).

The controller state and its operations are embedded shallowly:

* `PlayerState` mirrors the React state hooks `isPlaying`, `currentScene`,
  `prevScene`, `progress`, `isNarrating`, `isHoveringChart`.
* `handleNext`, `jumpToScene`, `reset`, `togglePlay` and the 100 ms animation
  interval body (`tick`) are translated line by line from the source.
* `TransState`/`tstep` add wall-clock time and the pending `setTimeout`
  callbacks scheduled by `handleNext`/`jumpToScene` (the source never calls
  `clearTimeout`, so timers accumulate and each one sets `prevScene` to null
  when it fires).
* `NarState` models the asynchronous narration pipeline of `playCaption`:
  the synchronous stop of the tracked `activeSourceRef`, the in-flight
  requests, and the resolution events that start a source or hit the catch
  branch (`setIsNarrating(false)`).
* `decodeAudioData` is the pure Int16-to-float channel de-interleaving.

Progress and samples are modelled with rationals; the source uses JS numbers
but every constant involved (100, 800, 12000, 32768) is exact.
-/

/-- Number of entries in the `scenes` array of the component
(`intro`, `data`, `preprocessing`, `architecture`, `training`,
`validation`, `deployment`). -/
def numScenes : Nat := 7

/-- `const SCENE_DURATION = 12000` (ms per slide). -/
def SCENE_DURATION : ℚ := 12000

/-- Amount added to `progress` by one firing of the 100 ms interval:
`100 / (SCENE_DURATION / 100)` from the animation-loop effect. -/
def tickInc : ℚ := 100 / (SCENE_DURATION / 100)

/-- The reactive state of the component that the playback claims are about. -/
structure PlayerState where
  isPlaying : Bool
  currentScene : Nat
  prevScene : Option Nat
  progress : ℚ
  isNarrating : Bool
  isHoveringChart : Bool
deriving Repr, DecidableEq

/-- `handleNext`: computes `nextIndex`, records the outgoing scene in
`prevScene`, resets `progress`, and stops autoplay when the advance wraps
from the last scene to index 0.  (The `setTimeout` that later clears
`prevScene` is modelled separately in `TransState`.) -/
def handleNext (N : Nat) (s : PlayerState) : PlayerState :=
  let nextIndex := if s.currentScene < N - 1 then s.currentScene + 1 else 0
  { s with
      prevScene := some s.currentScene
      currentScene := nextIndex
      progress := 0
      isPlaying := if nextIndex = 0 ∧ s.currentScene = N - 1 then false else s.isPlaying }

/-- `jumpToScene(index)`: returns unchanged when `index === currentScene`;
otherwise records `prevScene`, moves to `index` and resets `progress`.
The source performs no range check on `index`. -/
def jumpToScene (idx : Nat) (s : PlayerState) : PlayerState :=
  if idx = s.currentScene then s
  else { s with
           prevScene := some s.currentScene
           currentScene := idx
           progress := 0 }

/-- `reset = () => { setIsPlaying(false); setCurrentScene(0); setProgress(0); }` -/
def reset (s : PlayerState) : PlayerState :=
  { s with isPlaying := false, currentScene := 0, progress := 0 }

/-- `togglePlay = () => setIsPlaying(!isPlaying)` -/
def togglePlay (s : PlayerState) : PlayerState :=
  { s with isPlaying := !s.isPlaying }

/-- The `isNarrating` flip performed by `toggleNarration` (the audio side
effects are modelled in `NarState`). -/
def toggleNarrationFlag (s : PlayerState) : PlayerState :=
  { s with isNarrating := !s.isNarrating }

/-- One firing of the animation-loop interval.  The interval only exists
while `isPlaying && !isHoveringChart`; its body adds `tickInc` to
`progress`, and when the sum reaches 100 it calls `handleNext()` and
returns 0 (`handleNext` itself also sets `progress` to 0). -/
def tick (N : Nat) (s : PlayerState) : PlayerState :=
  if s.isPlaying && !s.isHoveringChart then
    if 100 ≤ s.progress + tickInc then handleNext N s
    else { s with progress := s.progress + tickInc }
  else s

/-- The controller commands quantified over by the invariant claims:
play/pause (the single `togglePlay` of the source), manual jumps, reset,
narration toggle, autoplay advance, interactive suspension (chart hover),
and clock ticks. -/
inductive Cmd where
  | togglePlay
  | jumpTo (idx : Nat)
  | reset
  | toggleNarration
  | advance
  | suspendStart
  | suspendEnd
  | tick
deriving Repr, DecidableEq

/-- Interpretation of one command on the player state. -/
def step (N : Nat) (c : Cmd) (s : PlayerState) : PlayerState :=
  match c with
  | Cmd.togglePlay => togglePlay s
  | Cmd.jumpTo idx => jumpToScene idx s
  | Cmd.reset => reset s
  | Cmd.toggleNarration => toggleNarrationFlag s
  | Cmd.advance => handleNext N s
  | Cmd.suspendStart => { s with isHoveringChart := true }
  | Cmd.suspendEnd => { s with isHoveringChart := false }
  | Cmd.tick => tick N s

/-- Run a finite command sequence. -/
def run (N : Nat) (cs : List Cmd) (s : PlayerState) : PlayerState :=
  cs.foldl (fun s c => step N c s) s

/-- Initial hook values: `useState(false)`, `useState(0)`, `useState(null)`,
`useState(0)`, `useState(false)`, `useState(false)`. -/
def initState : PlayerState :=
  { isPlaying := false
    currentScene := 0
    prevScene := none
    progress := 0
    isNarrating := false
    isHoveringChart := false }

/-!
## Timed transition model

`handleNext` and `jumpToScene` both end with `setTimeout(() => setPrevScene(null), 800)`.
The source keeps no handle on these timeouts and never calls `clearTimeout`,
so every scheduled callback eventually fires and unconditionally sets
`prevScene` to null.  `TransState` adds wall-clock time (`now`, in ms), the
multiset of pending callback fire times (`timers`), and a ghost field
`recordSetAt` remembering when the current transition record was created.
-/

/-- Transition-relevant state plus real time and pending `setTimeout`
callbacks.  `recordSetAt` is a ghost timestamp: the `now` at which the
current `prevScene` record was written (meaningful while `prevScene` is
`some _`). -/
structure TransState where
  currentScene : Nat
  prevScene : Option Nat
  recordSetAt : Nat
  timers : List Nat
  now : Nat
deriving Repr, DecidableEq

/-- Events of the timed model: a manual/autoplay scene change (both call the
same transition code) and the passage of `d` milliseconds. -/
inductive TEvent where
  | jump (idx : Nat)
  | elapse (d : Nat)
deriving Repr, DecidableEq

/-- Fire every pending `setTimeout` callback whose time has come.  Each
callback is `() => setPrevScene(null)`, so firing any due subset leaves
`prevScene = none`; the due timers are consumed. -/
def fireDue (s : TransState) : TransState :=
  if s.timers.any (fun t => t ≤ s.now) then
    { s with
        prevScene := none
        timers := s.timers.filter (fun t => s.now < t) }
  else s

/-- One event of the timed model.  `jump idx` is the shared tail of
`jumpToScene`/`handleNext`: record the outgoing scene and schedule a clear
callback 800 ms out, leaving earlier pending callbacks untouched (the
source has no `clearTimeout`).  `elapse d` advances time and fires the due
callbacks. -/
def tstep (e : TEvent) (s : TransState) : TransState :=
  match e with
  | TEvent.jump idx =>
      if idx = s.currentScene then s
      else
        { s with
            prevScene := some s.currentScene
            currentScene := idx
            recordSetAt := s.now
            timers := s.timers ++ [s.now + 800] }
  | TEvent.elapse d => fireDue { s with now := s.now + d }

/-- Run a finite event sequence of the timed model. -/
def trun (es : List TEvent) (s : TransState) : TransState :=
  es.foldl (fun s e => tstep e s) s

/-- Initial timed state: scene 0, no transition record, no pending timers. -/
def tinit : TransState :=
  { currentScene := 0, prevScene := none, recordSetAt := 0, timers := [], now := 0 }

/-- Invariant of the timed model: pending timers are strictly in the
future, and while a record exists its own 800 ms clear callback is still
pending. -/
def TInv (s : TransState) : Prop :=
  (∀ t ∈ s.timers, s.now < t) ∧
  (s.prevScene.isSome = true → s.recordSetAt + 800 ∈ s.timers)

theorem tinv_tstep (e : TEvent) (s : TransState) (h : TInv s) : TInv (tstep e s) := by
  obtain ⟨h1, h2⟩ := h
  cases e with
  | jump idx =>
      by_cases hidx : idx = s.currentScene
      · simpa [tstep, hidx] using ⟨h1, h2⟩
      · refine ⟨?_, ?_⟩
        · intro t ht
          simp only [tstep, if_neg hidx, List.mem_append, List.mem_singleton] at ht ⊢
          rcases ht with ht | ht
          · exact h1 t ht
          · omega
        · intro _
          simp [tstep, if_neg hidx]
  | elapse d =>
      simp only [tstep, fireDue]
      by_cases hany : (s.timers.any (fun t => t ≤ s.now + d)) = true
      · simp only [hany, if_pos]
        refine ⟨?_, ?_⟩
        · intro t ht
          simp only [List.mem_filter, decide_eq_true_eq] at ht
          exact ht.2
        · intro hsome
          simp at hsome
      · simp only [hany, if_neg, Bool.not_eq_true]
        rw [List.any_eq_true] at hany
        push_neg at hany
        refine ⟨?_, h2⟩
        intro t ht
        have h3 : ¬ (t ≤ s.now + d) := by simpa using hany t ht
        dsimp only at ht ⊢
        omega

theorem tinv_trun (es : List TEvent) (s : TransState) (h : TInv s) : TInv (trun es s) := by
  induction es generalizing s with
  | nil => simpa [trun] using h
  | cons e es ih =>
      have hstep := tinv_tstep e s h
      have := ih (tstep e s) hstep
      simpa [trun] using this

/-!
## Asynchronous narration model

`playCaption` first synchronously stops the source tracked by
`activeSourceRef` (if any) and nulls the ref, then `await`s the synthesis
request.  When the request resolves, the handler creates a fresh
`AudioBufferSourceNode`, calls `source.start()` and overwrites
`activeSourceRef` — it does not stop whatever source may have started in
the meantime, and there is no cancellation token that would discard an
in-flight request.  The catch branch runs `setIsNarrating(false)` and
nothing else.

`NarState` tracks each request by a fresh numeric id; a request id is in
`pendingReqs` while in flight and moves to `playingSources` when its source
has been started and not stopped.  `activeSource` mirrors
`activeSourceRef.current`.
-/

/-- Narration-relevant state.  `playingSources` are the ids of audio
sources that have been started and not stopped; `activeSource` is the one
the component remembers in `activeSourceRef`. -/
structure NarState where
  activeSource : Option Nat
  playingSources : List Nat
  pendingReqs : List Nat
  nextReqId : Nat
  isNarrating : Bool
  isPlaying : Bool
  currentScene : Nat
  progress : ℚ
deriving Repr, DecidableEq

/-- The synchronous prologue of `playCaption`: `activeSourceRef.current.stop()`
(tolerating an already-stopped source) and `activeSourceRef.current = null`. -/
def stopActive (s : NarState) : NarState :=
  match s.activeSource with
  | some k =>
      { s with
          playingSources := s.playingSources.filter (fun j => j ≠ k)
          activeSource := none }
  | none => s

/-- A call of `playCaption`: stop the tracked source, then issue the
asynchronous synthesis request (given a fresh id); the call returns with
the request still in flight. -/
def narrateCall (s : NarState) : NarState :=
  let s1 := stopActive s
  { s1 with
      pendingReqs := s1.pendingReqs ++ [s1.nextReqId]
      nextReqId := s1.nextReqId + 1 }

/-- Request `k` resolves successfully: the handler decodes the payload,
creates a source, `source.start()`s it and stores it in `activeSourceRef`.
No other source is stopped here. -/
def resolveOk (k : Nat) (s : NarState) : NarState :=
  if k ∈ s.pendingReqs then
    { s with
        pendingReqs := s.pendingReqs.filter (fun j => j ≠ k)
        playingSources := s.playingSources ++ [k]
        activeSource := some k }
  else s

/-- Request `k` fails (synthesis or decode error): the catch branch runs
`setIsNarrating(false)` and nothing else; no source ever starts for `k`. -/
def resolveFail (k : Nat) (s : NarState) : NarState :=
  if k ∈ s.pendingReqs then
    { s with
        pendingReqs := s.pendingReqs.filter (fun j => j ≠ k)
        isNarrating := false }
  else s

/-- Narration state right after narration has been toggled on. -/
def narInit : NarState :=
  { activeSource := none
    playingSources := []
    pendingReqs := []
    nextReqId := 0
    isNarrating := true
    isPlaying := true
    currentScene := 0
    progress := 0 }

/-!
## Audio payload decoding

`decodeAudioData` reinterprets the byte payload as an `Int16Array` and
fills one `Float32` channel buffer per channel with
`dataInt16[i * numChannels + channel] / 32768.0`.  The embedded version
receives the samples already as a list of 16-bit integers.
-/

/-- `frameCount = dataInt16.length / numChannels`. -/
def frameCount (data : List Int) (numChannels : Nat) : Nat :=
  data.length / numChannels

/-- The channel buffers produced by `decodeAudioData`: for each
`channel < numChannels` a list of `frameCount` samples
`dataInt16[i * numChannels + channel] / 32768`. -/
def decodeAudioData (data : List Int) (numChannels : Nat) : List (List ℚ) :=
  (List.range numChannels).map (fun channel =>
    (List.range (frameCount data numChannels)).map (fun i =>
      ((data.getD (i * numChannels + channel) 0 : Int) : ℚ) / 32768))

/-!
## Claims
-/

/-- Interleaving used against claim C1: two `playCaption` calls are issued
while neither request has resolved, then both resolve, the later call's
request first. -/
def c1state : NarState :=
  resolveOk 0 (resolveOk 1 (narrateCall (narrateCall narInit)))

/-- Claim C1 counterexample: after the interleaving `narrate; narrate;
resolve second; resolve first`, two audio sources are playing at once (the
late resolution of the first request starts a second concurrent source and
overwrites the tracked ref), so it is false that at most one narration
session is in Requesting or Playing state at any observed instant. -/
theorem narration_overlap_cex :
    1 < c1state.playingSources.length ∧
    ¬ (c1state.pendingReqs.length + c1state.playingSources.length ≤ 1) := by decide

/-- Claim C1 (amended): a new `playCaption` call synchronously stops the
source currently tracked by `activeSourceRef` and clears the ref before its
own asynchronous request is issued; but in-flight requests are never
cancelled, so two sessions can be in flight at once and an earlier request
that resolves late starts a second concurrent audio session (see the
counterexample). -/
theorem narrate_stops_tracked_source (s : NarState) (k : Nat)
    (h : s.activeSource = some k) :
    k ∉ (narrateCall s).playingSources ∧
    (narrateCall s).activeSource = none ∧
    s.nextReqId ∈ (narrateCall s).pendingReqs := by
  refine ⟨?_, ?_, ?_⟩
  · intro hk
    simp only [narrateCall, stopActive, h, List.mem_filter, decide_eq_true_eq] at hk
    exact hk.2 rfl
  · simp [narrateCall, stopActive, h]
  · simp [narrateCall, stopActive, h]

/-- Witness for the amended C1 theorem at a concrete state in which source
5 is tracked and playing. -/
theorem narrate_stops_tracked_source_w :
    5 ∉ (narrateCall { narInit with activeSource := some 5, playingSources := [5], nextReqId := 6 }).playingSources ∧
    (narrateCall { narInit with activeSource := some 5, playingSources := [5], nextReqId := 6 }).activeSource = none ∧
    ({ narInit with activeSource := some 5, playingSources := [5], nextReqId := 6 } : NarState).nextReqId ∈
      (narrateCall { narInit with activeSource := some 5, playingSources := [5], nextReqId := 6 }).pendingReqs :=
  narrate_stops_tracked_source _ 5 rfl

/-- One command keeps `currentScene` below `N` as long as any `jumpTo`
argument is itself below `N`. -/
theorem currentScene_lt_step (N : Nat) (c : Cmd) (s : PlayerState)
    (hN : 1 ≤ N) (hs : s.currentScene < N)
    (hc : ∀ k, c = Cmd.jumpTo k → k < N) :
    (step N c s).currentScene < N := by
  cases c with
  | togglePlay => simpa [step, togglePlay] using hs
  | jumpTo k =>
      have hk := hc k rfl
      by_cases h : k = s.currentScene
      · simpa [step, jumpToScene, h] using hs
      · simpa [step, jumpToScene, h] using hk
  | reset => simpa [step, reset] using hN
  | toggleNarration => simpa [step, toggleNarrationFlag] using hs
  | advance =>
      simp only [step, handleNext]
      split <;> omega
  | suspendStart => simpa [step] using hs
  | suspendEnd => simpa [step] using hs
  | tick =>
      simp only [step, tick]
      split
      · split
        · simp only [handleNext]
          split <;> omega
        · simpa using hs
      · simpa using hs

/-- Claim C2 counterexample: the component's `jumpToScene` performs no
range check, so with the 7-scene catalog the single command `jumpTo 9`
drives `currentScene` to 9, outside `[0, 7)` — the invariant does not hold
for every sequence of controller commands. -/
theorem jump_out_of_range_breaks_invariant :
    1 ≤ numScenes ∧ initState.currentScene < numScenes ∧
    ¬ ((run numScenes [Cmd.jumpTo 9] initState).currentScene < numScenes) := by decide

/-- Claim C2 (amended): for every catalog of `N ≥ 1` scenes and any finite
command sequence in which every `jumpTo` argument lies in `[0, N)` (which
every call site in the component guarantees), `currentScene` stays in
`[0, N)`; the restriction is necessary because `jumpToScene` does not
validate its argument. -/
theorem currentScene_in_range_of_run (N : Nat) (cs : List Cmd) (s : PlayerState)
    (hN : 1 ≤ N) (hs : s.currentScene < N)
    (hcs : ∀ k, Cmd.jumpTo k ∈ cs → k < N) :
    (run N cs s).currentScene < N := by
  induction cs generalizing s with
  | nil => simpa [run] using hs
  | cons c cs ih =>
      have h1 : (step N c s).currentScene < N :=
        currentScene_lt_step N c s hN hs
          (fun k hk => hcs k (by rw [hk]; exact List.mem_cons_self _ _))
      have h2 := ih (step N c s) h1 (fun k hk => hcs k (List.mem_cons_of_mem _ hk))
      simpa [run] using h2

/-- Witness for the amended C2 theorem: a concrete in-range command
sequence on the 7-scene catalog. -/
theorem currentScene_in_range_of_run_w :
    (run numScenes [Cmd.togglePlay, Cmd.jumpTo 3, Cmd.advance, Cmd.reset] initState).currentScene
      < numScenes :=
  currentScene_in_range_of_run numScenes _ initState (by decide) (by decide)
    (by
      intro k hk
      simp only [List.mem_cons, List.not_mem_nil, or_false] at hk
      rcases hk with hk | hk | hk | hk
      · exact Cmd.noConfusion hk
      · injection hk with hk
        rw [hk]
        decide
      · exact Cmd.noConfusion hk
      · exact Cmd.noConfusion hk)

/-- Claim C3 counterexample: `jumpTo 9` on the initial state of the 7-scene
catalog is not rejected — it mutates the state, moving `currentScene` from
0 to the out-of-range value 9, recording `prevScene` and starting a
transition. -/
theorem jumpTo_out_of_range_mutates :
    ¬ (9 < numScenes) ∧
    (jumpToScene 9 initState).currentScene = 9 ∧
    initState.currentScene = 0 ∧
    (jumpToScene 9 initState).prevScene = some 0 := by decide

/-- Claim C3 (amended): `jumpTo(currentScene)` is a no-op, but a call with
any other index — in range or not — is not rejected: it sets
`currentScene` to that index, `prevScene` to the outgoing index and
`progress` to 0, leaving `isPlaying` and `isNarrating` unchanged.  The
source performs no range validation. -/
theorem jumpTo_semantics (s : PlayerState) (idx : Nat) :
    jumpToScene s.currentScene s = s ∧
    (idx ≠ s.currentScene →
      (jumpToScene idx s).currentScene = idx ∧
      (jumpToScene idx s).prevScene = some s.currentScene ∧
      (jumpToScene idx s).progress = 0 ∧
      (jumpToScene idx s).isPlaying = s.isPlaying ∧
      (jumpToScene idx s).isNarrating = s.isNarrating) := by
  constructor
  · simp [jumpToScene]
  · intro h
    simp [jumpToScene, h]

/-- Witness for the amended C3 theorem at the initial state with target
index 9. -/
theorem jumpTo_semantics_w :
    jumpToScene initState.currentScene initState = initState ∧
    ((jumpToScene 9 initState).currentScene = 9 ∧
      (jumpToScene 9 initState).prevScene = some initState.currentScene ∧
      (jumpToScene 9 initState).progress = 0 ∧
      (jumpToScene 9 initState).isPlaying = initState.isPlaying ∧
      (jumpToScene 9 initState).isNarrating = initState.isNarrating) :=
  ⟨(jumpTo_semantics initState 9).1, (jumpTo_semantics initState 9).2 (by decide)⟩

/-- Interleaving used against claim C4: a transition begins at t = 0, a
second one at t = 500, and time advances to t = 800. -/
def c4trace : List TEvent :=
  [TEvent.jump 1, TEvent.elapse 500, TEvent.jump 2, TEvent.elapse 300]

/-- Claim C4 counterexample: the second transition (started at t = 500)
should, per the claim, survive until t = 1300; but the first transition's
clear callback — which the source never cancels — fires at t = 800 and
clears it, so the replacing record does not survive its own 800 ms
window. -/
theorem stale_timer_clears_second_record :
    (trun c4trace tinit).now = 800 ∧
    (trun c4trace tinit).recordSetAt = 500 ∧
    (trun c4trace tinit).now < (trun c4trace tinit).recordSetAt + 800 ∧
    (trun c4trace tinit).prevScene = none := by decide

/-- Claim C4 (amended): a transition record started at time T is absent
from the state at every time ≥ T + 800 ms, and a second transition begun
before that window elapses immediately replaces the first record (there is
never more than the single `prevScene` slot); but the first transition's
pending clear-timer is not cancelled, and when it fires it clears whichever
record is present, so the replacing record may disappear before its own
800 ms window ends. -/
theorem transition_record_absence :
    (∀ es : List TEvent, ((trun es tinit).prevScene).isSome = true →
        (trun es tinit).now < (trun es tinit).recordSetAt + 800) ∧
    (∀ (s : TransState) (idx : Nat), idx ≠ s.currentScene →
        (tstep (TEvent.jump idx) s).prevScene = some s.currentScene) := by
  constructor
  · intro es hsome
    have hinv : TInv (trun es tinit) := by
      apply tinv_trun
      constructor
      · intro t ht
        exact absurd ht (List.not_mem_nil t)
      · intro hs
        simp [tinit] at hs
    exact hinv.1 _ (hinv.2 hsome)
  · intro s idx h
    simp [tstep, h]

/-- Witness for the amended C4 theorem: one fresh transition, observed
immediately, is still inside its window; and a jump replaces the (empty)
record with the outgoing scene. -/
theorem transition_record_absence_w :
    (trun [TEvent.jump 1] tinit).now < (trun [TEvent.jump 1] tinit).recordSetAt + 800 ∧
    (tstep (TEvent.jump 2) tinit).prevScene = some tinit.currentScene :=
  ⟨transition_record_absence.1 [TEvent.jump 1] (by decide),
   transition_record_absence.2 tinit 2 (by decide)⟩

/-- State used against claims C5: playing on scene 2 with an active
transition record and narration enabled. -/
def c5state : PlayerState :=
  { isPlaying := true
    currentScene := 2
    prevScene := some 1
    progress := 40
    isNarrating := true
    isHoveringChart := false }

/-- Claim C5 counterexample: `reset` only writes `isPlaying`,
`currentScene` and `progress`; on a state with an active transition record
and narration enabled, the record is still present afterwards (it is not
cleared to `none`) and the narration flag is still set, so the claimed
postcondition of `reset()` does not hold. -/
theorem reset_keeps_transition_record :
    (reset c5state).prevScene = some 1 ∧ (reset c5state).isNarrating = true :=
  ⟨rfl, rfl⟩

/-- Claim C5 (amended): `reset()` stops playback, returns to index 0 and
progress 0, and changes nothing else: the transition record is left to be
cleared by its already-scheduled timer, and narration is not cancelled by
`reset` itself (the scene-change effect, not `reset`, restarts or stops
audio). -/
theorem reset_semantics (s : PlayerState) :
    (reset s).isPlaying = false ∧
    (reset s).currentScene = 0 ∧
    (reset s).progress = 0 ∧
    (reset s).prevScene = s.prevScene ∧
    (reset s).isNarrating = s.isNarrating ∧
    (reset s).isHoveringChart = s.isHoveringChart :=
  ⟨rfl, rfl, rfl, rfl, rfl, rfl⟩

/-- Claim C6: an autoplay advance fired on the last scene (`N - 1`) wraps
`currentScene` to 0 and stops autoplay. -/
theorem advance_wraps_and_stops (N : Nat) (s : PlayerState)
    (h : s.currentScene = N - 1) :
    (handleNext N s).currentScene = 0 ∧ (handleNext N s).isPlaying = false := by
  have h1 : ¬ (s.currentScene < N - 1) := by omega
  constructor
  · simp [handleNext, h1]
  · simp [handleNext, h1, h]

/-- Witness for the C6 theorem: the claim's example — 7 scenes, advancing
from index 6 produces index 0 and `isPlaying = false`. -/
theorem advance_wraps_and_stops_w :
    (handleNext numScenes { initState with isPlaying := true, currentScene := 6 }).currentScene = 0 ∧
    (handleNext numScenes { initState with isPlaying := true, currentScene := 6 }).isPlaying = false :=
  advance_wraps_and_stops numScenes _ (by decide)

/-- State used against claim C7: at scene 0 with accumulated progress. -/
def c7state : PlayerState :=
  { isPlaying := true
    currentScene := 0
    prevScene := none
    progress := 50
    isNarrating := false
    isHoveringChart := false }

/-- Claim C7 counterexample: `reset` called at scene 0 with progress 50
sets the non-zero progress back to 0 while `currentScene` stays 0, so
progress does not reset to 0 exactly when `currentScene` changes. -/
theorem reset_zeroes_progress_without_index_change :
    (step numScenes Cmd.reset c7state).currentScene = c7state.currentScene ∧
    c7state.progress ≠ 0 ∧
    (step numScenes Cmd.reset c7state).progress = 0 :=
  ⟨rfl, by norm_num [c7state], rfl⟩

/-- A tick that changes the scene resets progress to 0 (the overflow branch
calls `handleNext`). -/
theorem tick_progress_of_scene_change (N : Nat) (s : PlayerState)
    (h : (tick N s).currentScene ≠ s.currentScene) :
    (tick N s).progress = 0 := by
  by_cases hrun : (s.isPlaying && !s.isHoveringChart) = true
  · by_cases hov : 100 ≤ s.progress + tickInc
    · simp [tick, hrun, hov, handleNext]
    · exact absurd (by simp [tick, hrun, hov]) h
  · exact absurd (by simp [tick, hrun]) h

/-- Claim C7 (amended): every command that changes `currentScene` sets
`progress` to 0 in the same step, and a tick that does not overflow never
decreases progress; but the converse direction fails: `reset` at scene 0
zeroes a non-zero progress without an index change (see the
counterexample). -/
theorem progress_reset_on_index_change (N : Nat) (c : Cmd) (s : PlayerState) :
    ((step N c s).currentScene ≠ s.currentScene → (step N c s).progress = 0) ∧
    (s.progress + tickInc < 100 → s.progress ≤ (tick N s).progress) := by
  constructor
  · intro h
    cases c with
    | togglePlay => exact absurd rfl h
    | jumpTo idx =>
        by_cases hidx : idx = s.currentScene
        · exact absurd (by simp [step, jumpToScene, hidx]) h
        · simp [step, jumpToScene, hidx]
    | reset => rfl
    | toggleNarration => exact absurd rfl h
    | advance => simp [step, handleNext]
    | suspendStart => exact absurd rfl h
    | suspendEnd => exact absurd rfl h
    | tick => exact tick_progress_of_scene_change N s h
  · intro hlt
    by_cases hrun : (s.isPlaying && !s.isHoveringChart) = true
    · have hov : ¬ (100 ≤ s.progress + tickInc) := not_le.mpr hlt
      have ht : (tick N s).progress = s.progress + tickInc := by
        simp [tick, hrun, hov]
      rw [ht]
      have hpos : (0:ℚ) ≤ tickInc := by norm_num [tickInc, SCENE_DURATION]
      linarith
    · simp [tick, hrun]

/-- Witness for the amended C7 theorem: a concrete jump changes the scene
and progress comes out 0; a concrete non-overflowing tick does not decrease
progress. -/
theorem progress_reset_on_index_change_w :
    (step numScenes (Cmd.jumpTo 3) initState).progress = 0 ∧
    initState.progress ≤ (tick numScenes initState).progress :=
  ⟨(progress_reset_on_index_change numScenes (Cmd.jumpTo 3) initState).1 (by decide),
   (progress_reset_on_index_change numScenes Cmd.tick initState).2
     (by norm_num [initState, tickInc, SCENE_DURATION])⟩

/-- Claim C8: the per-tick increment is exactly
`100 * elapsedMs / SCENE_DURATION` at the fixed 100 ms cadence of the
interval (that is, 100 / 120 per tick); a tick whose sum would reach 100
instead runs the advance (`handleNext`) and leaves progress at 0, so after
any tick taken while the interval is live, progress lies in [0, 100]. -/
theorem tick_bounds_and_increment (N : Nat) (s : PlayerState) :
    tickInc = 100 * 100 / SCENE_DURATION ∧
    tickInc = 100 / 120 ∧
    (s.isPlaying = true → s.isHoveringChart = false → 0 ≤ s.progress →
      0 ≤ (tick N s).progress ∧ (tick N s).progress ≤ 100) ∧
    (s.isPlaying = true → s.isHoveringChart = false → s.progress + tickInc < 100 →
      (tick N s).progress = s.progress + tickInc) ∧
    (s.isPlaying = true → s.isHoveringChart = false → 100 ≤ s.progress + tickInc →
      tick N s = handleNext N s) := by
  have hpos : (0:ℚ) ≤ tickInc := by norm_num [tickInc, SCENE_DURATION]
  refine ⟨?_, ?_, ?_, ?_, ?_⟩
  · norm_num [tickInc, SCENE_DURATION]
  · norm_num [tickInc, SCENE_DURATION]
  · intro hp hh h0
    have hrun : (s.isPlaying && !s.isHoveringChart) = true := by simp [hp, hh]
    by_cases hov : 100 ≤ s.progress + tickInc
    · have ht : (tick N s).progress = 0 := by simp [tick, hrun, hov, handleNext]
      rw [ht]
      norm_num
    · have ht : (tick N s).progress = s.progress + tickInc := by simp [tick, hrun, hov]
      rw [ht]
      have := not_le.mp hov
      constructor <;> linarith
  · intro hp hh hlt
    have hrun : (s.isPlaying && !s.isHoveringChart) = true := by simp [hp, hh]
    have hov : ¬ (100 ≤ s.progress + tickInc) := not_le.mpr hlt
    simp [tick, hrun, hov]
  · intro hp hh hov
    have hrun : (s.isPlaying && !s.isHoveringChart) = true := by simp [hp, hh]
    simp [tick, hrun, hov]

/-- Witness for the C8 theorem: a live tick from progress 0 stays in
[0, 100] and adds exactly the increment. -/
theorem tick_bounds_and_increment_w :
    (0 ≤ (tick numScenes { initState with isPlaying := true }).progress ∧
      (tick numScenes { initState with isPlaying := true }).progress ≤ 100) ∧
    (tick numScenes { initState with isPlaying := true }).progress =
      ({ initState with isPlaying := true } : PlayerState).progress + tickInc :=
  ⟨(tick_bounds_and_increment numScenes _).2.2.1 rfl rfl (by norm_num [initState]),
   (tick_bounds_and_increment numScenes _).2.2.2.1 rfl rfl
     (by norm_num [initState, tickInc, SCENE_DURATION])⟩

/-- Claim C9: when narration request `k` fails, the catch branch clears
`isNarrating` and the session is gone (removed from the in-flight set, and
no source was ever started for it), while `isPlaying`, `currentScene` and
`progress` are untouched. -/
theorem narration_failure_effects (s : NarState) (k : Nat)
    (h : k ∈ s.pendingReqs) :
    (resolveFail k s).isNarrating = false ∧
    (resolveFail k s).isPlaying = s.isPlaying ∧
    (resolveFail k s).currentScene = s.currentScene ∧
    (resolveFail k s).progress = s.progress ∧
    k ∉ (resolveFail k s).pendingReqs ∧
    (resolveFail k s).playingSources = s.playingSources := by
  refine ⟨?_, ?_, ?_, ?_, ?_, ?_⟩ <;>
    simp [resolveFail, h, List.mem_filter]

/-- Witness for the C9 theorem: request 3 is in flight on scene 2 and
fails. -/
theorem narration_failure_effects_w :
    (resolveFail 3 { narInit with pendingReqs := [3], currentScene := 2 }).isNarrating = false ∧
    (resolveFail 3 { narInit with pendingReqs := [3], currentScene := 2 }).isPlaying =
      ({ narInit with pendingReqs := [3], currentScene := 2 } : NarState).isPlaying ∧
    (resolveFail 3 { narInit with pendingReqs := [3], currentScene := 2 }).currentScene =
      ({ narInit with pendingReqs := [3], currentScene := 2 } : NarState).currentScene ∧
    (resolveFail 3 { narInit with pendingReqs := [3], currentScene := 2 }).progress =
      ({ narInit with pendingReqs := [3], currentScene := 2 } : NarState).progress ∧
    3 ∉ (resolveFail 3 { narInit with pendingReqs := [3], currentScene := 2 }).pendingReqs ∧
    (resolveFail 3 { narInit with pendingReqs := [3], currentScene := 2 }).playingSources =
      ({ narInit with pendingReqs := [3], currentScene := 2 } : NarState).playingSources :=
  narration_failure_effects _ 3 (by decide)

/-- Indexing a map over `List.range`. -/
theorem getD_map_range {α : Type} (n : Nat) (f : Nat → α) (d : α) (i : Nat)
    (hi : i < n) :
    (((List.range n).map f).getD i d) = f i := by
  rw [List.getD_eq_getElem?_getD, List.getElem?_map, List.getElem?_range hi]
  rfl

/-- The flat sample index addressed by channel `c` and frame `i` is inside
the payload. -/
theorem sample_index_lt (data : List Int) (numChannels c i : Nat)
    (hc : c < numChannels) (hi : i < frameCount data numChannels) :
    i * numChannels + c < data.length := by
  have h1 : i + 1 ≤ data.length / numChannels := hi
  have h2 : (i + 1) * numChannels ≤ (data.length / numChannels) * numChannels :=
    Nat.mul_le_mul_right _ h1
  have h3 : (data.length / numChannels) * numChannels ≤ data.length :=
    Nat.div_mul_le_self _ _
  calc i * numChannels + c < i * numChannels + numChannels := by omega
    _ = (i + 1) * numChannels := by ring
    _ ≤ (data.length / numChannels) * numChannels := h2
    _ ≤ data.length := h3

/-- Claim C10: the decoded buffer for channel `c` at frame `i` is exactly
`sample[i * numChannels + c] / 32768`, and when every payload sample is a
signed 16-bit value the decoded value lies in [-1, 1]. -/
theorem decodeAudioData_correct (data : List Int) (numChannels c i : Nat)
    (hc : c < numChannels) (hi : i < frameCount data numChannels)
    (hb : ∀ x ∈ data, -32768 ≤ x ∧ x ≤ 32767) :
    ((decodeAudioData data numChannels).getD c []).getD i 0
      = ((data.getD (i * numChannels + c) 0 : Int) : ℚ) / 32768 ∧
    -1 ≤ ((decodeAudioData data numChannels).getD c []).getD i 0 ∧
    ((decodeAudioData data numChannels).getD c []).getD i 0 ≤ 1 := by
  have houter :
      (decodeAudioData data numChannels).getD c []
        = (List.range (frameCount data numChannels)).map (fun j =>
            ((data.getD (j * numChannels + c) 0 : Int) : ℚ) / 32768) := by
    unfold decodeAudioData
    exact getD_map_range numChannels _ [] c hc
  have hval :
      ((decodeAudioData data numChannels).getD c []).getD i 0
        = ((data.getD (i * numChannels + c) 0 : Int) : ℚ) / 32768 := by
    rw [houter]
    exact getD_map_range _ _ 0 i hi
  have hidx : i * numChannels + c < data.length :=
    sample_index_lt data numChannels c i hc hi
  have hmem : data.getD (i * numChannels + c) 0 ∈ data := by
    rw [List.getD_eq_getElem?_getD, List.getElem?_eq_getElem hidx]
    exact List.getElem_mem hidx
  obtain ⟨hlow, hhigh⟩ := hb _ hmem
  have hlowQ : (-32768 : ℚ) ≤ ((data.getD (i * numChannels + c) 0 : Int) : ℚ) := by
    exact_mod_cast hlow
  have hhighQ : ((data.getD (i * numChannels + c) 0 : Int) : ℚ) ≤ 32767 := by
    exact_mod_cast hhigh
  refine ⟨hval, ?_, ?_⟩
  · rw [hval]
    rw [le_div_iff₀ (by norm_num : (0:ℚ) < 32768)]
    linarith
  · rw [hval]
    rw [div_le_one (by norm_num : (0:ℚ) < 32768)]
    linarith

/-- Witness for the C10 theorem: a 2-channel payload of four samples;
channel 1, frame 1 addresses the flat sample at index 3. -/
theorem decodeAudioData_correct_w :
    ((decodeAudioData [100, -200, 300, 400] 2).getD 1 []).getD 1 0
      = ((([100, -200, 300, 400] : List Int).getD (1 * 2 + 1) 0 : Int) : ℚ) / 32768 ∧
    -1 ≤ ((decodeAudioData [100, -200, 300, 400] 2).getD 1 []).getD 1 0 ∧
    ((decodeAudioData [100, -200, 300, 400] 2).getD 1 []).getD 1 0 ≤ 1 :=
  decodeAudioData_correct [100, -200, 300, 400] 2 1 1 (by decide) (by decide)
    (by decide)
